import Mathlib

/-!
Shallow embedding of `filmaffinity_exporter.py` (class `FilmaffinityExporter`).

The program scrapes a paginated FilmAffinity user-ratings page, extracts one
record per movie from the markup, and lays the records out as a PDF.

Modelling conventions:
* HTML trees (the output of the black-box BeautifulSoup parser) are the
  inductive `HtmlNode`; `find_node` models `Tag.find(tag, class_=cls)`
  (first matching descendant, preorder), `find_all_with_parent` models
  `soup.find_all(tag, class_=cls)` paired with each hit's `.parent`.
* Python `str.strip()` and `str.split(' ')` are `pyStrip` / `pySplitSpace`,
  written structurally over `List Char` so they compute by `rfl`.
* The network is an oracle: pagination sees `String → Response` (URL to
  status code plus parsed body), asset fetching sees
  `Fetch = String → Except String (List Nat)` where `.error e` stands for
  any exception raised inside the corresponding `try` block (network error,
  non-2xx surfaced as broken content, corrupt image body) with message `e`.
* `requests.get(url)` without a `headers=` keyword is recorded as a request
  carrying the empty header list; `requests.get(url, headers=self.headers)`
  is recorded with the fixed `self_headers` list.
* An uncaught Python exception is `none` / `Except.error`: in
  `_extract_movie_data` the chained `movie.find('div', class_='mc-title')
  .find(...)` raises `AttributeError` when the outer `find` returns `None`,
  which the embedding renders as `none`.
* ReportLab flowables are the inductive `Flowable`; a table cell is a list
  of flowables (a single flowable or a plain string cell is a one-element
  list). `doc.build` itself (text flow, page breaks) is the black-box layout
  engine; the embedding exposes the element list handed to it, together with
  the trace of HTTP requests issued and the diagnostics printed.
* The unbounded `while True` pagination loop takes explicit fuel; theorems
  about it quantify over fuel or supply enough for the concrete network.
-/

/-- Python `str.strip()` on the character list: drop whitespace on both ends. -/
def pyStripChars (cs : List Char) : List Char :=
  ((cs.dropWhile Char.isWhitespace).reverse.dropWhile Char.isWhitespace).reverse

/-- Python `str.strip()`. -/
def pyStrip (s : String) : String :=
  String.mk (pyStripChars s.data)

/-- Helper for `pySplitSpace`: accumulate the current chunk (reversed). -/
def pySplitSpaceAux : List Char → List Char → List String
  | acc, [] => [String.mk acc.reverse]
  | acc, c :: cs =>
    if c = ' ' then String.mk acc.reverse :: pySplitSpaceAux [] cs
    else pySplitSpaceAux (c :: acc) cs

/-- Python `str.split(' ')`: split on every single space, keeping empty chunks;
`"".split(' ') = [""]`, so the list is never empty. -/
def pySplitSpace (s : String) : List String :=
  pySplitSpaceAux [] s.data

/-- A node of the parsed HTML tree (BeautifulSoup output). `classes` is the
`class` attribute split into tokens, kept apart from the other attributes. -/
inductive HtmlNode where
  | text (s : String)
  | elem (tag : String) (classes : List String) (attrs : List (String × String)) (children : List HtmlNode)

mutual

/-- BeautifulSoup `.text`: concatenation of all descendant strings. -/
def HtmlNode.textContent : HtmlNode → String
  | .text s => s
  | .elem _ _ _ cs => textContentList cs

/-- `.text` over a child list, in order. -/
def textContentList : List HtmlNode → String
  | [] => ""
  | c :: cs => c.textContent ++ textContentList cs

end

/-- Does a node match `find(tag, class_=cls)`: an element with that tag whose
class list contains `cls`. -/
def matchesTagClass (n : HtmlNode) (tag cls : String) : Bool :=
  match n with
  | .text _ => false
  | .elem t cs _ _ => t == tag && cs.contains cls

mutual

/-- First match of `find(tag, class_=cls)` among `ns` and their descendants,
in document (preorder) order. -/
def find_in_list (ns : List HtmlNode) (tag cls : String) : Option HtmlNode :=
  match ns with
  | [] => none
  | n :: rest =>
    if matchesTagClass n tag cls then some n
    else
      match find_in_node n tag cls with
      | some r => some r
      | none => find_in_list rest tag cls

/-- BeautifulSoup `node.find(tag, class_=cls)`: first matching strict
descendant of `n`. -/
def find_in_node (n : HtmlNode) (tag cls : String) : Option HtmlNode :=
  match n with
  | .text _ => none
  | .elem _ _ _ children => find_in_list children tag cls

end

/-- Source-facing name for `node.find(tag, class_=cls)`. -/
def find_node (n : HtmlNode) (tag cls : String) : Option HtmlNode :=
  find_in_node n tag cls

mutual

/-- All `find_all(tag, class_=cls)` hits among `ns` (children of `parent`)
and their descendants, each paired with its immediate `.parent`. -/
def find_all_list (parent : HtmlNode) (ns : List HtmlNode) (tag cls : String) :
    List (HtmlNode × HtmlNode) :=
  match ns with
  | [] => []
  | n :: rest =>
    (if matchesTagClass n tag cls then [(n, parent)] else [])
      ++ find_all_node n tag cls ++ find_all_list parent rest tag cls

/-- All matching strict descendants of `n`, paired with their parents. -/
def find_all_node (n : HtmlNode) (tag cls : String) : List (HtmlNode × HtmlNode) :=
  match n with
  | .text _ => []
  | .elem _ _ _ children => find_all_list n children tag cls

end

/-- `soup.find_all(tag, class_=cls)` with each hit's `.parent` (the soup root
is the parent of top-level elements). -/
def find_all_with_parent (soup : HtmlNode) (tag cls : String) : List (HtmlNode × HtmlNode) :=
  find_all_node soup tag cls

/-- BeautifulSoup `tag.get(key, default)` on the attribute list. -/
def get_attr (n : HtmlNode) (key default : String) : String :=
  match n with
  | .text _ => default
  | .elem _ _ attrs _ => (attrs.lookup key).getD default

/-- One extracted movie record: the dict returned by `_extract_movie_data`. -/
structure MovieData where
  title : String
  year : String
  rating : String
  own_rating : String
  director : String
  cast : String
  poster_url : String
  flag_url : String
deriving DecidableEq

/-- `self.headers` from `__init__`: the fixed browser-identifying header set. -/
def self_headers : List (String × String) :=
  [("User-Agent", "Mozilla/5.0 (Windows NT 10.0; Win64; x64) AppleWebKit/537.36 (KHTML, like Gecko) Chrome/91.0.4472.124 Safari/537.36"),
   ("Accept", "text/html,application/xhtml+xml,application/xml;q=0.9,image/webp,*/*;q=0.8"),
   ("Accept-Language", "en-US,en;q=0.9"),
   ("Connection", "keep-alive")]

/-- `self.base_url` from `__init__`. -/
def base_url (user_id : String) : String :=
  "https://www.filmaffinity.com/es/userratings.php?user_id=" ++ user_id
    ++ "&chv=list&orderby=rating"

/-- `_extract_movie_data(movie, parent_element)`. `none` models the
`AttributeError` raised by the chained finds on lines 34 and 36 of the source
(`movie.find('div', class_='mc-title').find('a', class_='d-md-inline-block')`
and `movie.find('div', class_='fa-avg-rat-box').find('div', class_='avg')`)
when the outer `find` returns `None`. All other accesses are guarded by
`if ... else` defaults in the source and cannot raise. -/
def extract_movie_data (movie parent_element : HtmlNode) : Option MovieData :=
  match find_node movie "div" "mc-title" with
  | none => none
  | some mc_title =>
    match find_node movie "div" "fa-avg-rat-box" with
    | none => none
    | some avg_box =>
      let title_elem := find_node mc_title "a" "d-md-inline-block"
      let year_elem := find_node movie "span" "mc-year"
      let rating_elem := find_node avg_box "div" "avg"
      let own_rating_elem := find_node parent_element "div" "fa-user-rat-box"
      let director_elem := find_node movie "div" "mc-director"
      let cast_elem := find_node movie "div" "mc-cast"
      let poster_img := find_node movie "img" "lazyload"
      let flag_img := find_node movie "img" "nflag"
      some {
        title := match title_elem with
          | some e => pyStrip e.textContent
          | none => "Unknown"
        year := match year_elem with
          | some e => pyStrip e.textContent
          | none => ""
        rating := match rating_elem with
          | some e => pyStrip e.textContent
          | none => ""
        own_rating := match own_rating_elem with
          | some e => pyStrip e.textContent
          | none => ""
        director := match director_elem with
          | some e => pyStrip e.textContent
          | none => ""
        cast := match cast_elem with
          | some e => pyStrip e.textContent
          | none => ""
        poster_url := match poster_img with
          | some e => (pySplitSpace (get_attr e "data-srcset" "")).headD ""
          | none => ""
        flag_url := match flag_img with
          | some e => "https://www.filmaffinity.com/" ++ get_attr e "src" ""
          | none => "" }

/-- One HTTP response as pagination sees it: status code and the parsed body
(`BeautifulSoup(response.text, 'html.parser')` is the black-box parser). -/
structure Response where
  statusCode : Nat
  soup : HtmlNode

/-- An outbound GET request: URL plus the custom headers passed to
`requests.get` (empty when no `headers=` keyword was given). -/
structure HttpRequest where
  url : String
  headers : List (String × String)
deriving DecidableEq

/-- The listing URL for one page: `f"{self.base_url}&p={page}"`. -/
def page_url (base : String) (page : Nat) : String :=
  base ++ "&p=" ++ toString page

/-- `soup.find_all('div', class_='user-ratings-movie-item')`, each node with
its `.parent` (used as `parent_element`). -/
def movie_items (soup : HtmlNode) : List (HtmlNode × HtmlNode) :=
  find_all_with_parent soup "div" "user-ratings-movie-item"

/-- The inner `for movie in movies_elements` loop of `get_voted_movies`:
extract each record and append it to `self.movies`. `Except.error acc`
models the uncaught `AttributeError` escaping mid-page, with `acc` the
mutated `self.movies` at that point. -/
def process_movie_items : List (HtmlNode × HtmlNode) → List MovieData →
    Except (List MovieData) (List MovieData)
  | [], acc => .ok acc
  | (movie, parent_element) :: rest, acc =>
    match extract_movie_data movie parent_element with
    | none => .error acc
    | some d => process_movie_items rest (acc ++ [d])

/-- The `while True` loop of `get_voted_movies`, with explicit fuel for the
unbounded iteration (theorems supply sufficient fuel). Returns the trace of
listing-page GET requests (issued as `requests.get(url)`, hence with no
custom headers) and the final `self.movies` (or the partial list if an
extraction raised). Fuel exhaustion returns the accumulator unchanged and is
a modelling artifact, never reached in the theorems below. -/
def get_voted_movies_loop (net : String → Response) (base : String) :
    Nat → Nat → List MovieData → List HttpRequest × Except (List MovieData) (List MovieData)
  | 0, _, acc => ([], .ok acc)
  | fuel + 1, page, acc =>
    let url := page_url base page
    let resp := net url
    if resp.statusCode ≠ 200 then ([⟨url, []⟩], .ok acc)
    else
      let items := movie_items resp.soup
      if items.isEmpty then ([⟨url, []⟩], .ok acc)
      else
        match process_movie_items items acc with
        | .error part => ([⟨url, []⟩], .error part)
        | .ok acc2 =>
          let r := get_voted_movies_loop net base fuel (page + 1) acc2
          (⟨url, []⟩ :: r.1, r.2)

/-- `get_voted_movies`: start at page 1 with the current `self.movies`. -/
def get_voted_movies (net : String → Response) (user_id : String) (fuel : Nat)
    (movies : List MovieData) :
    List HttpRequest × Except (List MovieData) (List MovieData) :=
  get_voted_movies_loop net (base_url user_id) fuel 1 movies

/-- A ReportLab `ParagraphStyle` (the fields `_create_styles` sets). -/
structure ParagraphStyle where
  name : String
  fontSize : ℚ
  textColor : String
  fontName : String
  spaceAfter : ℚ := 0
  leading : ℚ := 0
  alignment : String := ""
deriving DecidableEq

/-- The style dictionary returned by `_create_styles`. -/
structure Styles where
  title : ParagraphStyle
  movie_title : ParagraphStyle
  rating : ParagraphStyle
  general_rating : ParagraphStyle
  movie_info : ParagraphStyle
deriving DecidableEq

/-- `_create_styles`: the five fixed presentation styles. -/
def create_styles : Styles where
  title := { name := "CustomTitle", fontSize := 20, spaceAfter := 25,
             alignment := "TA_CENTER", textColor := "#1F497D",
             fontName := "Helvetica-Bold" }
  movie_title := { name := "MovieTitle", fontSize := 14, textColor := "#2E74B5",
                   fontName := "Helvetica-Bold", spaceAfter := 8 }
  rating := { name := "RatingStyle", fontSize := 12, textColor := "#C00000",
              fontName := "Helvetica", spaceAfter := 4 }
  general_rating := { name := "GeneralRatingStyle", fontSize := 10,
                      textColor := "#C00000", fontName := "Helvetica",
                      spaceAfter := 4 }
  movie_info := { name := "MovieInfo", fontSize := 10, leading := 14,
                  textColor := "#333333", fontName := "Helvetica" }

/-- `reportlab.lib.units.inch` in points. -/
def inch : ℚ := 72

/-- A ReportLab flowable as the program builds them. A table cell is a list
of flowables; a plain-string cell is `[cellStr s]`. `image` carries the raw
bytes and the `drawHeight`/`drawWidth` set on it; `table` carries rows,
`colWidths`, optional `rowHeights`, and its `TableStyle` commands rendered
as strings. -/
inductive Flowable where
  | paragraph (style : ParagraphStyle) (text : String)
  | image (data : List Nat) (drawHeight drawWidth : ℚ)
  | spacer (width height : ℚ)
  | cellStr (s : String)
  | table (rows : List (List (List Flowable))) (colWidths : List ℚ)
          (rowHeights : Option (List ℚ)) (style : List String)

/-- The asset-fetch oracle: `requests.get(url, headers=...).content`, where
`.error e` stands for any exception raised in the surrounding `try` block. -/
def Fetch : Type := String → Except String (List Nat)

/-- `_create_movie_poster_cell`: empty cell when no poster URL (Python
truthiness of the string) or when the fetch raises; on failure the
diagnostic `print` is recorded. Also returns the request issued. -/
def create_movie_poster_cell (fetch : Fetch) (movie : MovieData) :
    List Flowable × List HttpRequest × List String :=
  if movie.poster_url ≠ "" then
    match fetch movie.poster_url with
    | .ok img_data =>
      ([Flowable.image img_data ((1.2 : ℚ) * inch) ((0.8 : ℚ) * inch)],
       [⟨movie.poster_url, self_headers⟩], [])
    | .error e =>
      ([], [⟨movie.poster_url, self_headers⟩],
       ["Error loading poster for " ++ movie.title ++ ": " ++ e])
  else ([], [], [])

/-- The `TableStyle` of the title table. -/
def title_table_style : List String :=
  ["VALIGN (0,0) (-1,-1) MIDDLE", "ALIGN (0,0) (0,0) LEFT",
   "ALIGN (1,0) (1,0) RIGHT", "LEFTPADDING (0,0) (-1,-1) 0",
   "RIGHTPADDING (0,0) (-1,-1) 0"]

/-- `_create_movie_title_table`: a one-row two-column table pairing the title
paragraph with the flag image (or the string cell `''` when no flag URL; on
a failed flag fetch the `except` skips the append, leaving a one-cell row).
Also returns the request issued and the diagnostics printed. -/
def create_movie_title_table (fetch : Fetch) (movie : MovieData) (styles : Styles) :
    Flowable × List HttpRequest × List String :=
  let title := Flowable.paragraph styles.movie_title movie.title
  let rrd : List (List Flowable) × List HttpRequest × List String :=
    if movie.flag_url ≠ "" then
      match fetch movie.flag_url with
      | .ok flag_data =>
        ([[title], [Flowable.image flag_data 12 16]],
         [⟨movie.flag_url, self_headers⟩], [])
      | .error e =>
        ([[title]], [⟨movie.flag_url, self_headers⟩],
         ["Error loading flag for " ++ movie.title ++ ": " ++ e])
    else ([[title], [Flowable.cellStr ""]], [], [])
  (Flowable.table [rrd.1] [(5.2 : ℚ) * inch, (0.3 : ℚ) * inch] none title_table_style,
   rrd.2.1, rrd.2.2)

/-- `_create_movie_info_cell`: title table, then the unconditional combined
rating paragraph and spacer, then one labeled line each for year, director
and cast, emitted only when the field is non-empty (Python truthiness). -/
def create_movie_info_cell (movie : MovieData) (styles : Styles)
    (title_table : Flowable) : List Flowable :=
  [title_table,
   Flowable.paragraph styles.rating
     ("<b>" ++ movie.own_rating ++ "</b> (" ++ movie.rating ++ ")"),
   Flowable.spacer 1 4]
  ++ (if movie.year ≠ "" then
        [Flowable.paragraph styles.movie_info ("<b>Year:</b> " ++ movie.year)]
      else [])
  ++ (if movie.director ≠ "" then
        [Flowable.paragraph styles.movie_info ("<b>Director:</b> " ++ movie.director)]
      else [])
  ++ (if movie.cast ≠ "" then
        [Flowable.paragraph styles.movie_info ("<b>Cast:</b> " ++ movie.cast)]
      else [])

/-- `_create_movie_separator`: the thin horizontal rule between records. -/
def create_movie_separator : Flowable :=
  Flowable.table [[[Flowable.cellStr ""]]] [(6.5 : ℚ) * inch] (some [1])
    ["LINEABOVE (0,0) (-1,0) 0.5 #CCCCCC", "TOPPADDING (0,0) (-1,0) 15",
     "BOTTOMPADDING (0,0) (-1,0) 15"]

/-- The `TableStyle` of the outer per-movie table. -/
def movie_table_style : List String :=
  ["VALIGN (0,0) (-1,-1) TOP", "LEFTPADDING (0,0) (-1,-1) 0",
   "RIGHTPADDING (0,0) (-1,-1) 0"]

/-- One iteration of the `for movie in self.movies` loop of `export_to_pdf`:
the two elements appended (movie table, separator), the asset requests
issued (poster first, then flag) and the diagnostics printed. -/
def export_movie_block (fetch : Fetch) (styles : Styles) (movie : MovieData) :
    List Flowable × List HttpRequest × List String :=
  let pc := create_movie_poster_cell fetch movie
  let tt := create_movie_title_table fetch movie styles
  let info_cell := create_movie_info_cell movie styles tt.1
  let movie_table := Flowable.table [[pc.1, info_cell]]
    [(1 : ℚ) * inch, (5.5 : ℚ) * inch] none movie_table_style
  ([movie_table, create_movie_separator], pc.2.1 ++ tt.2.1, pc.2.2 ++ tt.2.2)

/-- The whole `for movie in self.movies` loop: concatenated elements,
requests and diagnostics, in listing order. -/
def export_blocks (fetch : Fetch) (styles : Styles) :
    List MovieData → List Flowable × List HttpRequest × List String
  | [] => ([], [], [])
  | m :: rest =>
    let b := export_movie_block fetch styles m
    let r := export_blocks fetch styles rest
    (b.1 ++ r.1, b.2.1 ++ r.2.1, b.2.2 ++ r.2.2)

/-- The `SimpleDocTemplate` handed to `doc.build`: fixed page geometry plus
the element list (the layout engine itself is a black box). -/
structure DocTemplate where
  pagesize : String
  rightMargin : ℚ
  leftMargin : ℚ
  topMargin : ℚ
  bottomMargin : ℚ
  elements : List Flowable

/-- `export_to_pdf`: build the element list over `self.movies` with the
fixed styles and geometry; also expose the asset-request trace and the
diagnostics printed along the way. -/
def export_to_pdf (fetch : Fetch) (movies : List MovieData) :
    DocTemplate × List HttpRequest × List String :=
  let styles := create_styles
  let eb := export_blocks fetch styles movies
  ({ pagesize := "A4", rightMargin := 36, leftMargin := 36, topMargin := 72,
     bottomMargin := 72, elements := eb.1 }, eb.2.1, eb.2.2)

/-- Concrete user-rating box carrying the personal rating, sitting in the
record's parent in the fixtures below. -/
def user_rat_box_8 : HtmlNode :=
  .elem "div" ["fa-user-rat-box"] [] [.text " 8 "]

/-- A fully populated record node fixture. -/
def fixture_movie_node : HtmlNode :=
  .elem "div" ["user-ratings-movie-item"] [] [
    .elem "div" ["mc-title"] [] [.elem "a" ["d-md-inline-block"] [] [.text "The Matrix "]],
    .elem "span" ["mc-year"] [] [.text "1999"],
    .elem "div" ["fa-avg-rat-box"] [] [.elem "div" ["avg"] [] [.text "7.9"]],
    .elem "div" ["mc-director"] [] [.text "Wachowski"],
    .elem "div" ["mc-cast"] [] [.text "Reeves"],
    .elem "img" ["lazyload"] [("data-srcset", "https://pics.fa/m1.jpg 480w, https://pics.fa/m2.jpg 960w")] [],
    .elem "img" ["nflag"] [("src", "/imgs/countries/US.png")] []]

/-- A listing page holding one record inside its parent row. -/
def fixture_soup : HtmlNode :=
  .elem "body" [] [] [
    .elem "li" ["row"] [] [user_rat_box_8, fixture_movie_node]]

/-- The record `extract_movie_data` produces from the fixture. -/
def fixture_record : MovieData where
  title := "The Matrix"
  year := "1999"
  rating := "7.9"
  own_rating := "8"
  director := "Wachowski"
  cast := "Reeves"
  poster_url := "https://pics.fa/m1.jpg"
  flag_url := "https://www.filmaffinity.com//imgs/countries/US.png"

/-- A network whose page 1 holds the fixture record and whose page 2 is a
well-formed empty listing page. -/
def fixture_net : String → Response := fun url =>
  if url = page_url (base_url "u1") 1 then { statusCode := 200, soup := fixture_soup }
  else { statusCode := 200, soup := .elem "body" [] [] [] }


/-- A record node with both containers present but every inner sub-node
missing: all eight fields fall back to their defaults. -/
def sparse_movie : HtmlNode :=
  .elem "div" ["user-ratings-movie-item"] [] [
    .elem "div" ["mc-title"] [] [],
    .elem "div" ["fa-avg-rat-box"] [] []]

/-- A bare record/context node with no sub-structure at all. -/
def bare_div : HtmlNode :=
  .elem "div" [] [] []

/-- C1 (counterexample): on a record node missing the `mc-title` container
the chained `movie.find('div', class_='mc-title').find(...)` raises
`AttributeError` (modelled as `none`), so field extraction does not replace
the missing fields by defaults — it errors, refuting "field extraction never
raises an error". -/
theorem c1_counterexample : extract_movie_data bare_div bare_div = none := rfl

/-- C1 (amended): provided the record node carries the `mc-title` and
`fa-avg-rat-box` containers (so the two chained finds cannot raise),
extraction always succeeds, and each of the eight fields whose sub-node is
missing in the markup is replaced by its default: the sentinel "Unknown" for
the title and empty text for every other field, never absent. -/
theorem c1_amended (movie parent_element mc_title avg_box : HtmlNode)
    (ht : find_node movie "div" "mc-title" = some mc_title)
    (hr : find_node movie "div" "fa-avg-rat-box" = some avg_box) :
    ∃ r, extract_movie_data movie parent_element = some r ∧
      (find_node mc_title "a" "d-md-inline-block" = none → r.title = "Unknown") ∧
      (find_node movie "span" "mc-year" = none → r.year = "") ∧
      (find_node avg_box "div" "avg" = none → r.rating = "") ∧
      (find_node parent_element "div" "fa-user-rat-box" = none → r.own_rating = "") ∧
      (find_node movie "div" "mc-director" = none → r.director = "") ∧
      (find_node movie "div" "mc-cast" = none → r.cast = "") ∧
      (find_node movie "img" "lazyload" = none → r.poster_url = "") ∧
      (find_node movie "img" "nflag" = none → r.flag_url = "") := by
  simp only [extract_movie_data, ht, hr]
  refine ⟨_, rfl, ?_, ?_, ?_, ?_, ?_, ?_, ?_, ?_⟩ <;>
    (intro h; rw [h])

/-- C1 (witness): on a concrete record node holding only the two containers,
every field defaults as the amended claim states. -/
theorem c1_amended_witness :
    ∃ r, extract_movie_data sparse_movie bare_div = some r ∧
      (find_node (.elem "div" ["mc-title"] [] []) "a" "d-md-inline-block" = none →
          r.title = "Unknown") ∧
      (find_node sparse_movie "span" "mc-year" = none → r.year = "") ∧
      (find_node (.elem "div" ["fa-avg-rat-box"] [] []) "div" "avg" = none →
          r.rating = "") ∧
      (find_node bare_div "div" "fa-user-rat-box" = none → r.own_rating = "") ∧
      (find_node sparse_movie "div" "mc-director" = none → r.director = "") ∧
      (find_node sparse_movie "div" "mc-cast" = none → r.cast = "") ∧
      (find_node sparse_movie "img" "lazyload" = none → r.poster_url = "") ∧
      (find_node sparse_movie "img" "nflag" = none → r.flag_url = "") :=
  c1_amended sparse_movie bare_div (.elem "div" ["mc-title"] [] [])
    (.elem "div" ["fa-avg-rat-box"] [] []) rfl rfl

/-- C6: the personal rating is read from the context (parent) node, not the
record node: whenever the record node has no personal-rating sub-node of its
own but the context node's `fa-user-rat-box` strips to "8", extraction
yields personal rating "8" (provided extraction succeeds at all, i.e. the
two containers of the chained finds are present). -/
theorem c6_own_rating_from_context
    (movie parent_element mc_title avg_box rat_box : HtmlNode)
    (ht : find_node movie "div" "mc-title" = some mc_title)
    (hr : find_node movie "div" "fa-avg-rat-box" = some avg_box)
    (_hself : find_node movie "div" "fa-user-rat-box" = none)
    (hctx : find_node parent_element "div" "fa-user-rat-box" = some rat_box)
    (h8 : pyStrip rat_box.textContent = "8") :
    ∃ r, extract_movie_data movie parent_element = some r ∧ r.own_rating = "8" := by
  simp only [extract_movie_data, ht, hr, hctx]
  exact ⟨_, rfl, h8⟩

/-- C6 (witness): concrete record node with no own rating region, concrete
context node carrying " 8 ". -/
theorem c6_witness :
    ∃ r, extract_movie_data sparse_movie (.elem "li" ["row"] [] [user_rat_box_8]) = some r ∧
      r.own_rating = "8" :=
  c6_own_rating_from_context sparse_movie (.elem "li" ["row"] [] [user_rat_box_8])
    (.elem "div" ["mc-title"] [] []) (.elem "div" ["fa-avg-rat-box"] [] [])
    user_rat_box_8 rfl rfl rfl rfl rfl

/-- C7: for a record node whose flag image has source attribute
`/images/es.gif`, the extracted flag URL is the fixed site root naively
concatenated in front of the attribute value, preserving the double slash
(provided extraction succeeds at all). -/
theorem c7_flag_url_concat (movie parent_element mc_title avg_box flag : HtmlNode)
    (ht : find_node movie "div" "mc-title" = some mc_title)
    (hr : find_node movie "div" "fa-avg-rat-box" = some avg_box)
    (hf : find_node movie "img" "nflag" = some flag)
    (hsrc : get_attr flag "src" "" = "/images/es.gif") :
    ∃ r, extract_movie_data movie parent_element = some r ∧
      r.flag_url = "https://www.filmaffinity.com//images/es.gif" := by
  simp only [extract_movie_data, ht, hr, hf]
  exact ⟨_, rfl, by rw [hsrc]; rfl⟩

/-- A movie node fixture whose flag image source is `/images/es.gif`. -/
def es_flag_movie : HtmlNode :=
  .elem "div" ["user-ratings-movie-item"] [] [
    .elem "div" ["mc-title"] [] [],
    .elem "div" ["fa-avg-rat-box"] [] [],
    .elem "img" ["nflag"] [("src", "/images/es.gif")] []]

/-- C7 (witness): the concrete node yields the double-slash URL. -/
theorem c7_witness :
    ∃ r, extract_movie_data es_flag_movie bare_div = some r ∧
      r.flag_url = "https://www.filmaffinity.com//images/es.gif" :=
  c7_flag_url_concat es_flag_movie bare_div (.elem "div" ["mc-title"] [] [])
    (.elem "div" ["fa-avg-rat-box"] [] [])
    (.elem "img" ["nflag"] [("src", "/images/es.gif")] []) rfl rfl rfl rfl

/-- Accumulator law for the per-page extraction loop: running with initial
`self.movies` equal to `acc` prepends `acc` to the result of running from
the empty list, in both the normal and the raising case. -/
theorem process_movie_items_acc (items : List (HtmlNode × HtmlNode))
    (acc : List MovieData) :
    process_movie_items items acc =
      match process_movie_items items [] with
      | .ok l => .ok (acc ++ l)
      | .error l => .error (acc ++ l) := by
  induction items generalizing acc with
  | nil => simp [process_movie_items]
  | cons mp rest ih =>
    obtain ⟨movie, parent_element⟩ := mp
    cases hx : extract_movie_data movie parent_element with
    | none => simp [process_movie_items, hx]
    | some d =>
      simp only [process_movie_items, hx, List.nil_append]
      rw [ih (acc ++ [d]), ih [d]]
      cases process_movie_items rest [] <;> simp

/-- Accumulator law for the pagination loop: the request trace does not
depend on the initial `self.movies`, and the record outcome prepends it. -/
theorem get_voted_movies_loop_acc (net : String → Response) (base : String)
    (fuel : Nat) :
    ∀ page acc,
      get_voted_movies_loop net base fuel page acc =
        ((get_voted_movies_loop net base fuel page []).1,
         match (get_voted_movies_loop net base fuel page []).2 with
         | .ok l => .ok (acc ++ l)
         | .error l => .error (acc ++ l)) := by
  induction fuel with
  | zero => intro page acc; simp [get_voted_movies_loop]
  | succ n ih =>
    intro page acc
    simp only [get_voted_movies_loop]
    by_cases hs : (net (page_url base page)).statusCode ≠ 200
    · simp [hs]
    · simp only [hs, if_false, ite_false, reduceIte]
      by_cases he : (movie_items (net (page_url base page)).soup).isEmpty
      · simp [he]
      · simp only [he, if_false, ite_false, Bool.false_eq_true, reduceIte]
        rw [process_movie_items_acc _ acc, process_movie_items_acc _ ([] : List MovieData)]
        cases hp : process_movie_items (movie_items (net (page_url base page)).soup) [] with
        | error l => simp
        | ok l =>
          simp only [List.nil_append]
          rw [ih (page + 1) (acc ++ l), ih (page + 1) l]
          cases (get_voted_movies_loop net base n (page + 1) []).2 <;> simp

/-- A network answering every listing request with status 201 (successful by
the 2xx standard) and a page that does contain a record node. -/
def net201 : String → Response := fun _ =>
  { statusCode := 201, soup := fixture_soup }

/-- A network answering every listing request with status 404. -/
def net404 : String → Response := fun _ =>
  { statusCode := 404, soup := .elem "body" [] [] [] }

/-- C2 (counterexample): the stop condition is `status_code != 200`, not
"non-2xx". On a network whose page 1 answers 201 — a successful 2xx
response carrying a record node — pagination stops immediately after the
first request and appends nothing, although the claim says a successful
page with record nodes has its records appended and pagination repeats. -/
theorem c2_counterexample :
    (net201 (page_url (base_url "u1") 1)).statusCode = 201 ∧
    200 ≤ 201 ∧ 201 < 300 ∧
    (movie_items (net201 (page_url (base_url "u1") 1)).soup).isEmpty = false ∧
    get_voted_movies net201 "u1" 5 [] = ([⟨page_url (base_url "u1") 1, []⟩], .ok []) :=
  ⟨rfl, by norm_num, by norm_num, rfl, rfl⟩

/-- C2 (amended): pagination starts at page 1 and, on each page, stops and
returns exactly the records accumulated so far when the response status is
not exactly 200 (so even a 2xx status other than 200 stops it) or when the
page yields zero record nodes — in particular no node from a terminating
page is added; otherwise, provided every record on the page extracts
without raising, it appends the extraction of every record node found on
that page, increments the page number, and repeats. -/
theorem c2_amended :
    (∀ (net : String → Response) (uid : String) (fuel : Nat) (acc : List MovieData),
       get_voted_movies net uid fuel acc = get_voted_movies_loop net (base_url uid) fuel 1 acc) ∧
    (∀ (net : String → Response) (base : String) (fuel page : Nat) (acc : List MovieData),
       (net (page_url base page)).statusCode ≠ 200 →
       get_voted_movies_loop net base (fuel + 1) page acc =
         ([⟨page_url base page, []⟩], .ok acc)) ∧
    (∀ (net : String → Response) (base : String) (fuel page : Nat) (acc : List MovieData),
       (net (page_url base page)).statusCode = 200 →
       (movie_items (net (page_url base page)).soup).isEmpty = true →
       get_voted_movies_loop net base (fuel + 1) page acc =
         ([⟨page_url base page, []⟩], .ok acc)) ∧
    (∀ (net : String → Response) (base : String) (fuel page : Nat)
       (acc acc2 : List MovieData),
       (net (page_url base page)).statusCode = 200 →
       (movie_items (net (page_url base page)).soup).isEmpty = false →
       process_movie_items (movie_items (net (page_url base page)).soup) acc = .ok acc2 →
       get_voted_movies_loop net base (fuel + 1) page acc =
         (⟨page_url base page, []⟩ :: (get_voted_movies_loop net base fuel (page + 1) acc2).1,
          (get_voted_movies_loop net base fuel (page + 1) acc2).2)) ∧
    (∀ (items : List (HtmlNode × HtmlNode)) (acc : List MovieData),
       (∀ mp ∈ items, (extract_movie_data mp.1 mp.2).isSome) →
       process_movie_items items acc =
         .ok (acc ++ items.filterMap (fun mp => extract_movie_data mp.1 mp.2))) := by
  refine ⟨fun _ _ _ _ => rfl, ?_, ?_, ?_, ?_⟩
  · intro net base fuel page acc hs
    simp [get_voted_movies_loop, hs]
  · intro net base fuel page acc hs he
    simp [get_voted_movies_loop, hs, he]
  · intro net base fuel page acc acc2 hs he hp
    simp [get_voted_movies_loop, hs, he, hp]
  · intro items
    induction items with
    | nil => intro acc _; simp [process_movie_items]
    | cons mp rest ih =>
      intro acc hall
      obtain ⟨movie, parent_element⟩ := mp
      have h1 : (extract_movie_data movie parent_element).isSome :=
        hall _ (List.mem_cons_self _ _)
      obtain ⟨d, hd⟩ := Option.isSome_iff_exists.mp h1
      have h2 := ih (acc ++ [d]) (fun mp hmp => hall mp (List.mem_cons_of_mem _ hmp))
      simp only [process_movie_items, hd, h2, List.filterMap_cons]
      simp

/-- C2 (witness): the amended stepping facts instantiated on the concrete
two-page fixture network (one record on page 1, empty page 2) and on the
404 network. -/
theorem c2_amended_witness :
    get_voted_movies fixture_net "u1" 3 [] =
      get_voted_movies_loop fixture_net (base_url "u1") 3 1 [] ∧
    get_voted_movies_loop net404 (base_url "u1") 1 1 [] =
      ([⟨page_url (base_url "u1") 1, []⟩], .ok []) ∧
    get_voted_movies_loop fixture_net (base_url "u1") 1 2 [] =
      ([⟨page_url (base_url "u1") 2, []⟩], .ok []) ∧
    get_voted_movies_loop fixture_net (base_url "u1") 2 1 [] =
      (⟨page_url (base_url "u1") 1, []⟩ ::
         (get_voted_movies_loop fixture_net (base_url "u1") 1 2 [fixture_record]).1,
       (get_voted_movies_loop fixture_net (base_url "u1") 1 2 [fixture_record]).2) ∧
    process_movie_items (movie_items fixture_soup) [] =
      .ok ([] ++ (movie_items fixture_soup).filterMap
            (fun mp => extract_movie_data mp.1 mp.2)) :=
  ⟨c2_amended.1 fixture_net "u1" 3 [],
   c2_amended.2.1 net404 (base_url "u1") 0 1 [] (by decide),
   c2_amended.2.2.1 fixture_net (base_url "u1") 0 2 [] rfl rfl,
   c2_amended.2.2.2.1 fixture_net (base_url "u1") 1 1 [] [fixture_record] rfl rfl rfl,
   c2_amended.2.2.2.2 (movie_items fixture_soup) [] (by decide)⟩

/-- C9: retrieval appends to `self.movies` without clearing it: if a run
from the empty list yields the records `new` (with request trace `tr`),
then the same run on an exporter already holding `old` yields `old ++ new`
with the same trace, and a second identical run on the same exporter leaves
`new ++ new` — every record twice, so retrieval is not idempotent. -/
theorem c9_append_not_idempotent (net : String → Response) (uid : String)
    (fuel : Nat) (old new : List MovieData) (tr : List HttpRequest)
    (h : get_voted_movies net uid fuel [] = (tr, .ok new)) :
    get_voted_movies net uid fuel old = (tr, .ok (old ++ new)) ∧
    get_voted_movies net uid fuel new = (tr, .ok (new ++ new)) := by
  constructor <;>
    (rw [get_voted_movies, get_voted_movies_loop_acc, ← get_voted_movies, h])

/-- C9 (witness): on the two-page fixture network the first run collects the
fixture record, a run starting from a one-record list appends to it, and
the second identical run duplicates it. -/
theorem c9_witness :
    get_voted_movies fixture_net "u1" 3 [fixture_record] =
      ([⟨page_url (base_url "u1") 1, []⟩, ⟨page_url (base_url "u1") 2, []⟩],
       .ok ([fixture_record] ++ [fixture_record])) ∧
    get_voted_movies fixture_net "u1" 3 [fixture_record] =
      ([⟨page_url (base_url "u1") 1, []⟩, ⟨page_url (base_url "u1") 2, []⟩],
       .ok ([fixture_record] ++ [fixture_record])) :=
  c9_append_not_idempotent fixture_net "u1" 3 [fixture_record] [fixture_record]
    [⟨page_url (base_url "u1") 1, []⟩, ⟨page_url (base_url "u1") 2, []⟩] rfl

/-- The poster cell fetch issues exactly one request — to the poster URL,
with `self.headers` — whenever the record declares a poster, whether or not
the fetch succeeds, and none otherwise. -/
theorem create_movie_poster_cell_reqs (fetch : Fetch) (movie : MovieData) :
    (create_movie_poster_cell fetch movie).2.1 =
      if movie.poster_url ≠ "" then [⟨movie.poster_url, self_headers⟩] else [] := by
  unfold create_movie_poster_cell
  split_ifs with h
  · cases fetch movie.poster_url <;> rfl
  · rfl

/-- The title table fetch issues exactly one request — to the flag URL, with
`self.headers` — whenever the record declares a flag, and none otherwise. -/
theorem create_movie_title_table_reqs (fetch : Fetch) (movie : MovieData)
    (styles : Styles) :
    (create_movie_title_table fetch movie styles).2.1 =
      if movie.flag_url ≠ "" then [⟨movie.flag_url, self_headers⟩] else [] := by
  unfold create_movie_title_table
  split_ifs with h
  · cases fetch movie.flag_url <;> rfl
  · rfl

/-- The export loop decomposes per record: elements, request trace and
diagnostics are the concatenations of the per-record ones, in order. -/
theorem export_blocks_flatMap (fetch : Fetch) (styles : Styles)
    (movies : List MovieData) :
    export_blocks fetch styles movies =
      (movies.flatMap (fun m => (export_movie_block fetch styles m).1),
       movies.flatMap (fun m => (export_movie_block fetch styles m).2.1),
       movies.flatMap (fun m => (export_movie_block fetch styles m).2.2)) := by
  induction movies with
  | nil => simp [export_blocks]
  | cons m rest ih => simp [export_blocks, ih]

/-- C3: the document handed to `doc.build` holds exactly one rendered block
per extracted record, in listing order, each block immediately followed by
the separator; the element count is twice the record count; and within each
block the field order is fixed — poster cell on the left, then the info
cell holding title+flag table, the ratings paragraph, and the year,
director and cast lines in that order. -/
theorem c3_export_structure (fetch : Fetch) (movies : List MovieData) :
    (export_to_pdf fetch movies).1.elements =
      movies.flatMap (fun m => (export_movie_block fetch create_styles m).1) ∧
    (export_to_pdf fetch movies).1.elements.length = 2 * movies.length ∧
    (∀ m : MovieData,
       (export_movie_block fetch create_styles m).1 =
         [Flowable.table
            [[(create_movie_poster_cell fetch m).1,
              create_movie_info_cell m create_styles
                (create_movie_title_table fetch m create_styles).1]]
            [(1 : ℚ) * inch, (5.5 : ℚ) * inch] none movie_table_style,
          create_movie_separator]) ∧
    (∀ (m : MovieData) (tt : Flowable),
       create_movie_info_cell m create_styles tt =
         [tt,
          Flowable.paragraph create_styles.rating
            ("<b>" ++ m.own_rating ++ "</b> (" ++ m.rating ++ ")"),
          Flowable.spacer 1 4]
         ++ (if m.year ≠ "" then
               [Flowable.paragraph create_styles.movie_info ("<b>Year:</b> " ++ m.year)]
             else [])
         ++ (if m.director ≠ "" then
               [Flowable.paragraph create_styles.movie_info
                  ("<b>Director:</b> " ++ m.director)]
             else [])
         ++ (if m.cast ≠ "" then
               [Flowable.paragraph create_styles.movie_info ("<b>Cast:</b> " ++ m.cast)]
             else [])) := by
  have he : (export_to_pdf fetch movies).1.elements =
      movies.flatMap (fun m => (export_movie_block fetch create_styles m).1) := by
    simp [export_to_pdf, export_blocks_flatMap]
  have hlen : ∀ ms : List MovieData,
      (ms.flatMap (fun m => (export_movie_block fetch create_styles m).1)).length
        = 2 * ms.length := by
    intro ms
    induction ms with
    | nil => simp
    | cons m rest ih =>
      rw [List.flatMap_cons, List.length_append, ih]
      have hb : (export_movie_block fetch create_styles m).1.length = 2 := rfl
      rw [hb, List.length_cons]
      ring
  exact ⟨he, by rw [he]; exact hlen movies, fun m => rfl, fun m tt => rfl⟩

/-- C10: the combined rating line is rendered unconditionally, second in the
info cell right after the title table — even when both ratings are empty it
renders as an empty bold value followed by empty parentheses — while the
year, director and cast lines each appear only when their field is
non-empty (the cell length counts exactly the non-empty ones). -/
theorem c10_rating_line_unconditional (m : MovieData) (styles : Styles)
    (tt : Flowable) :
    ((create_movie_info_cell m styles tt)[1]? =
       some (Flowable.paragraph styles.rating
         ("<b>" ++ m.own_rating ++ "</b> (" ++ m.rating ++ ")"))) ∧
    (m.own_rating = "" → m.rating = "" →
       (create_movie_info_cell m styles tt)[1]? =
         some (Flowable.paragraph styles.rating "<b></b> ()")) ∧
    ((create_movie_info_cell m styles tt).length =
       3 + (if m.year ≠ "" then 1 else 0) + (if m.director ≠ "" then 1 else 0)
         + (if m.cast ≠ "" then 1 else 0)) := by
  refine ⟨rfl, ?_, ?_⟩
  · intro ho hr
    have hs : ("<b>" ++ m.own_rating ++ "</b> (" ++ m.rating ++ ")") = "<b></b> ()" := by
      rw [ho, hr]; decide
    rw [create_movie_info_cell, hs]
    simp [List.cons_append]
  · simp only [create_movie_info_cell]
    split_ifs <;> simp

/-- C10 (witness): on a record with every field empty the info cell is
exactly the title table, the empty rating paragraph and the spacer. -/
theorem c10_witness :
    ((create_movie_info_cell ⟨"", "", "", "", "", "", "", ""⟩ create_styles
        (Flowable.cellStr ""))[1]? =
      some (Flowable.paragraph create_styles.rating "<b></b> ()")) ∧
    ((create_movie_info_cell ⟨"", "", "", "", "", "", "", ""⟩ create_styles
        (Flowable.cellStr "")).length =
      3 + (if ("" : String) ≠ "" then 1 else 0) + (if ("" : String) ≠ "" then 1 else 0)
        + (if ("" : String) ≠ "" then 1 else 0)) :=
  ⟨(c10_rating_line_unconditional ⟨"", "", "", "", "", "", "", ""⟩ create_styles
      (Flowable.cellStr "")).2.1 rfl rfl,
   (c10_rating_line_unconditional ⟨"", "", "", "", "", "", "", ""⟩ create_styles
      (Flowable.cellStr "")).2.2⟩

/-- The asset requests of one rendered block: the poster request then the
flag request. -/
theorem export_movie_block_reqs (fetch : Fetch) (styles : Styles) (m : MovieData) :
    (export_movie_block fetch styles m).2.1 =
      (create_movie_poster_cell fetch m).2.1
        ++ (create_movie_title_table fetch m styles).2.1 := rfl

/-- How often one block requests the URL `u` (for non-empty `u`): once per
field of the record that references it. -/
theorem export_movie_block_count (fetch : Fetch) (styles : Styles)
    (m : MovieData) (u : String) (hu : u ≠ "") :
    (((export_movie_block fetch styles m).2.1).map HttpRequest.url).count u =
      (if m.poster_url = u then 1 else 0) + (if m.flag_url = u then 1 else 0) := by
  rw [export_movie_block_reqs, create_movie_poster_cell_reqs,
    create_movie_title_table_reqs, List.map_append, List.count_append]
  have hp : ∀ v : String,
      (((if v ≠ "" then [(⟨v, self_headers⟩ : HttpRequest)] else []).map
          HttpRequest.url).count u) = if v = u then 1 else 0 := by
    intro v
    by_cases hv : v = ""
    · subst hv
      simp [Ne.symm hu]
    · by_cases hvu : v = u
      · subst hvu
        simp [hu]
      · have h0 : List.count u [v] = 0 := by
          rw [List.count_eq_zero]
          simp [Ne.symm hvu]
        simp [hv, hvu, h0]
  rw [hp m.poster_url, hp m.flag_url]

/-- C4 (amended): in one export each non-empty URL `u` is requested exactly
once per record field that references it — the number of GET requests to
`u` equals the number of records whose poster URL is `u` plus the number
whose flag URL is `u`. In particular a URL shared by several records is
fetched several times: nothing is cached within a run. -/
theorem c4_amended (fetch : Fetch) (movies : List MovieData) (u : String)
    (hu : u ≠ "") :
    (((export_to_pdf fetch movies).2.1).map HttpRequest.url).count u =
      (movies.filter (fun m => m.poster_url = u)).length +
      (movies.filter (fun m => m.flag_url = u)).length := by
  have hreq : (export_to_pdf fetch movies).2.1
      = movies.flatMap (fun m => (export_movie_block fetch create_styles m).2.1) := by
    simp [export_to_pdf, export_blocks_flatMap]
  have hcount : ∀ ms : List MovieData,
      (((ms.flatMap (fun m => (export_movie_block fetch create_styles m).2.1)).map
          HttpRequest.url).count u) =
        (ms.filter (fun m => m.poster_url = u)).length +
        (ms.filter (fun m => m.flag_url = u)).length := by
    intro ms
    induction ms with
    | nil => simp
    | cons m rest ih =>
      rw [List.flatMap_cons, List.map_append, List.count_append, ih,
        export_movie_block_count fetch create_styles m u hu]
      by_cases hpu : m.poster_url = u <;> by_cases hfu : m.flag_url = u <;>
        simp [List.filter_cons, hpu, hfu] <;> omega
  rw [hreq]
  exact hcount movies

/-- Two records sharing one flag URL. -/
def dup_flag_record : MovieData where
  title := "A"
  year := ""
  rating := ""
  own_rating := ""
  director := ""
  cast := ""
  poster_url := ""
  flag_url := "https://www.filmaffinity.com//imgs/countries/US.png"

/-- An asset oracle that always succeeds with a one-byte body. -/
def fetch_ok : Fetch := fun _ => .ok [7]

/-- C4 (counterexample): two records referencing the same flag URL cause two
GET requests to that URL within a single export — the URL is not fetched
"at most once per export per URL". -/
theorem c4_counterexample :
    ((((export_to_pdf fetch_ok [dup_flag_record, dup_flag_record]).2.1).map
        HttpRequest.url).count
      "https://www.filmaffinity.com//imgs/countries/US.png") = 2 ∧ 1 < 2 :=
  ⟨rfl, by norm_num⟩

/-- C4 (witness): the per-reference count instantiated on the concrete
two-record export. -/
theorem c4_amended_witness :
    ((((export_to_pdf fetch_ok [dup_flag_record, dup_flag_record]).2.1).map
        HttpRequest.url).count
      "https://www.filmaffinity.com//imgs/countries/US.png") =
      ([dup_flag_record, dup_flag_record].filter
        (fun m => m.poster_url = "https://www.filmaffinity.com//imgs/countries/US.png")).length +
      ([dup_flag_record, dup_flag_record].filter
        (fun m => m.flag_url = "https://www.filmaffinity.com//imgs/countries/US.png")).length :=
  c4_amended fetch_ok [dup_flag_record, dup_flag_record]
    "https://www.filmaffinity.com//imgs/countries/US.png" (by decide)

theorem get_voted_movies_loop_headers (net : String → Response) (base : String) :
    ∀ (fuel page : Nat) (acc : List MovieData) (r : HttpRequest),
      r ∈ (get_voted_movies_loop net base fuel page acc).1 → r.headers = [] := by
  intro fuel
  induction fuel with
  | zero =>
    intro page acc r hr
    simp [get_voted_movies_loop] at hr
  | succ n ih =>
    intro page acc r hr
    rw [get_voted_movies_loop] at hr
    by_cases hs : (net (page_url base page)).statusCode ≠ 200
    · rw [if_pos hs] at hr
      simp only [List.mem_singleton] at hr
      rw [hr]
    · rw [if_neg hs] at hr
      by_cases he : (movie_items (net (page_url base page)).soup).isEmpty
      · rw [if_pos he] at hr
        simp only [List.mem_singleton] at hr
        rw [hr]
      · rw [if_neg he] at hr
        cases hp : process_movie_items (movie_items (net (page_url base page)).soup) acc with
        | error part =>
          rw [hp] at hr
          simp only [List.mem_singleton] at hr
          rw [hr]
        | ok acc2 =>
          rw [hp] at hr
          simp only [List.mem_cons] at hr
          rcases hr with hr | hr
          · rw [hr]
          · exact ih (page + 1) acc2 r hr

/-- Every asset request of the export carries `self.headers`. -/
theorem export_reqs_headers (fetch : Fetch) (movies : List MovieData)
    (r : HttpRequest) (hr : r ∈ (export_to_pdf fetch movies).2.1) :
    r.headers = self_headers := by
  have hreq : (export_to_pdf fetch movies).2.1
      = movies.flatMap (fun m => (export_movie_block fetch create_styles m).2.1) := by
    simp [export_to_pdf, export_blocks_flatMap]
  rw [hreq, List.mem_flatMap] at hr
  obtain ⟨m, _, hm⟩ := hr
  rw [export_movie_block_reqs, create_movie_poster_cell_reqs,
    create_movie_title_table_reqs, List.mem_append] at hm
  rcases hm with hm | hm <;> (split at hm <;> simp_all)

/-- C5 (amended): the two kinds of outbound GET do not share one header
set — every asset request (poster or flag) carries the fixed
browser-identifying `self.headers`, but every listing-page request is sent
with no custom headers at all (and the fixed set is non-empty, so the two
differ). -/
theorem c5_amended :
    (∀ (net : String → Response) (uid : String) (fuel : Nat)
       (acc : List MovieData) (r : HttpRequest),
       r ∈ (get_voted_movies net uid fuel acc).1 → r.headers = []) ∧
    (∀ (fetch : Fetch) (movies : List MovieData) (r : HttpRequest),
       r ∈ (export_to_pdf fetch movies).2.1 → r.headers = self_headers) ∧
    self_headers ≠ [] :=
  ⟨fun net uid fuel acc r hr => get_voted_movies_loop_headers net (base_url uid) fuel 1 acc r hr,
   fun fetch movies r hr => export_reqs_headers fetch movies r hr,
   by decide⟩

/-- C5 (counterexample): the listing-page request is sent without the fixed
browser-identifying header set — on a concrete network the first (and only)
pagination request carries no headers, while the fixed set `self.headers`
is non-empty; so not every outbound GET carries the same fixed header set. -/
theorem c5_counterexample :
    (get_voted_movies net404 "u1" 1 []).1 =
      [⟨page_url (base_url "u1") 1, []⟩] ∧
    (⟨page_url (base_url "u1") 1, []⟩ : HttpRequest).headers ≠ self_headers :=
  ⟨rfl, by decide⟩

/-- C5 (witness): the amended header facts instantiated on concrete runs —
the one pagination request of the 404 network has empty headers, and the
one asset request of a single-flag export carries `self.headers`. -/
theorem c5_amended_witness :
    (HttpRequest.headers ⟨page_url (base_url "u1") 1, []⟩ : List (String × String)) = [] ∧
    (HttpRequest.headers ⟨dup_flag_record.flag_url, self_headers⟩) = self_headers :=
  ⟨c5_amended.1 net404 "u1" 1 [] ⟨page_url (base_url "u1") 1, []⟩ (by decide),
   c5_amended.2.1 fetch_ok [dup_flag_record] ⟨dup_flag_record.flag_url, self_headers⟩
     (by decide)⟩

/-- The diagnostics of one rendered block: poster diagnostics then flag
diagnostics. -/
theorem export_movie_block_diags (fetch : Fetch) (styles : Styles) (m : MovieData) :
    (export_movie_block fetch styles m).2.2 =
      (create_movie_poster_cell fetch m).2.2
        ++ (create_movie_title_table fetch m styles).2.2 := rfl

/-- C8: a failing asset fetch — poster or flag — is absorbed at the call
site: the export always builds two elements per record (the run completes)
and each record's block depends only on the fetches of its own URLs, so all
other records render exactly as they would with a working network. When a
record's poster fetch fails, the diagnostic naming the record's title is
among the printed diagnostics and that record's block simply has an empty
poster cell, its info cell rendered normally. When a record's flag fetch
fails, the flag diagnostic naming the title is printed and the flag
degrades to absent — the title table keeps only the title cell — while the
poster cell and the rest of the block render normally. -/
theorem c8_asset_failure_resilience (fetch : Fetch) (movies : List MovieData)
    (i : Nat) (hi : i < movies.length) :
    (export_to_pdf fetch movies).1.elements.length = 2 * movies.length ∧
    (export_to_pdf fetch movies).1.elements =
      movies.flatMap (fun m => (export_movie_block fetch create_styles m).1) ∧
    (∀ (g1 g2 : Fetch) (m : MovieData),
       g1 m.poster_url = g2 m.poster_url → g1 m.flag_url = g2 m.flag_url →
       export_movie_block g1 create_styles m = export_movie_block g2 create_styles m) ∧
    (∀ e : String,
       (movies.get ⟨i, hi⟩).poster_url ≠ "" →
       fetch ((movies.get ⟨i, hi⟩).poster_url) = .error e →
       ("Error loading poster for " ++ (movies.get ⟨i, hi⟩).title ++ ": " ++ e)
         ∈ (export_to_pdf fetch movies).2.2 ∧
       (export_movie_block fetch create_styles (movies.get ⟨i, hi⟩)).1 =
         [Flowable.table
            [[[], create_movie_info_cell (movies.get ⟨i, hi⟩) create_styles
                    (create_movie_title_table fetch (movies.get ⟨i, hi⟩) create_styles).1]]
            [(1 : ℚ) * inch, (5.5 : ℚ) * inch] none movie_table_style,
          create_movie_separator]) ∧
    (∀ e : String,
       (movies.get ⟨i, hi⟩).flag_url ≠ "" →
       fetch ((movies.get ⟨i, hi⟩).flag_url) = .error e →
       ("Error loading flag for " ++ (movies.get ⟨i, hi⟩).title ++ ": " ++ e)
         ∈ (export_to_pdf fetch movies).2.2 ∧
       (create_movie_title_table fetch (movies.get ⟨i, hi⟩) create_styles).1 =
         Flowable.table
           [[[Flowable.paragraph create_styles.movie_title (movies.get ⟨i, hi⟩).title]]]
           [(5.2 : ℚ) * inch, (0.3 : ℚ) * inch] none title_table_style ∧
       (export_movie_block fetch create_styles (movies.get ⟨i, hi⟩)).1 =
         [Flowable.table
            [[(create_movie_poster_cell fetch (movies.get ⟨i, hi⟩)).1,
              create_movie_info_cell (movies.get ⟨i, hi⟩) create_styles
                (create_movie_title_table fetch (movies.get ⟨i, hi⟩) create_styles).1]]
            [(1 : ℚ) * inch, (5.5 : ℚ) * inch] none movie_table_style,
          create_movie_separator]) := by
  have helems : (export_to_pdf fetch movies).1.elements =
      movies.flatMap (fun m => (export_movie_block fetch create_styles m).1) := by
    simp [export_to_pdf, export_blocks_flatMap]
  have hdiags : (export_to_pdf fetch movies).2.2
      = movies.flatMap (fun m => (export_movie_block fetch create_styles m).2.2) := by
    simp [export_to_pdf, export_blocks_flatMap]
  have hlen : ∀ ms : List MovieData,
      (ms.flatMap (fun m => (export_movie_block fetch create_styles m).1)).length
        = 2 * ms.length := by
    intro ms
    induction ms with
    | nil => simp
    | cons m rest ih =>
      rw [List.flatMap_cons, List.length_append, ih]
      have hb : (export_movie_block fetch create_styles m).1.length = 2 := rfl
      rw [hb, List.length_cons]
      ring
  refine ⟨by rw [helems]; exact hlen movies, helems, ?_, ?_, ?_⟩
  · intro g1 g2 m h1 h2
    simp only [export_movie_block, create_movie_poster_cell,
      create_movie_title_table, h1, h2]
  · intro e hne hfail
    have hpc : create_movie_poster_cell fetch (movies.get ⟨i, hi⟩) =
        ([], [⟨(movies.get ⟨i, hi⟩).poster_url, self_headers⟩],
         ["Error loading poster for " ++ (movies.get ⟨i, hi⟩).title ++ ": " ++ e]) := by
      rw [create_movie_poster_cell, if_pos hne, hfail]
    constructor
    · rw [hdiags, List.mem_flatMap]
      refine ⟨movies.get ⟨i, hi⟩, List.get_mem movies i hi, ?_⟩
      rw [export_movie_block_diags, hpc]
      simp
    · simp only [export_movie_block, hpc]
  · intro e hne hfail
    have htt : create_movie_title_table fetch (movies.get ⟨i, hi⟩) create_styles =
        (Flowable.table
           [[[Flowable.paragraph create_styles.movie_title (movies.get ⟨i, hi⟩).title]]]
           [(5.2 : ℚ) * inch, (0.3 : ℚ) * inch] none title_table_style,
         [⟨(movies.get ⟨i, hi⟩).flag_url, self_headers⟩],
         ["Error loading flag for " ++ (movies.get ⟨i, hi⟩).title ++ ": " ++ e]) := by
      rw [create_movie_title_table, if_pos hne, hfail]
    refine ⟨?_, by rw [htt], rfl⟩
    rw [hdiags, List.mem_flatMap]
    refine ⟨movies.get ⟨i, hi⟩, List.get_mem movies i hi, ?_⟩
    rw [export_movie_block_diags, htt]
    simp

/-- A record whose poster and flag URLs the witness oracle both refuse. -/
def broken_assets_record : MovieData where
  title := "Broken"
  year := ""
  rating := ""
  own_rating := ""
  director := ""
  cast := ""
  poster_url := "https://px.fa/broken.jpg"
  flag_url := "https://px.fa/flag.gif"

/-- An oracle failing exactly on the broken poster and flag URLs. -/
def fetch_404 : Fetch := fun url =>
  if url = "https://px.fa/broken.jpg" ∨ url = "https://px.fa/flag.gif" then
    .error "404"
  else .ok [7]

/-- C8 (witness): a concrete two-record export whose first record's poster
and flag fetches both 404 — the run yields all four elements, both
diagnostics name the record, the failing block has an empty poster cell,
and its title table keeps only the title cell. -/
theorem c8_witness :
    (export_to_pdf fetch_404 [broken_assets_record, fixture_record]).1.elements.length =
      2 * [broken_assets_record, fixture_record].length ∧
    ("Error loading poster for " ++ broken_assets_record.title ++ ": " ++ "404")
      ∈ (export_to_pdf fetch_404 [broken_assets_record, fixture_record]).2.2 ∧
    (export_movie_block fetch_404 create_styles broken_assets_record).1 =
      [Flowable.table
         [[[], create_movie_info_cell broken_assets_record create_styles
                 (create_movie_title_table fetch_404 broken_assets_record create_styles).1]]
         [(1 : ℚ) * inch, (5.5 : ℚ) * inch] none movie_table_style,
       create_movie_separator] ∧
    ("Error loading flag for " ++ broken_assets_record.title ++ ": " ++ "404")
      ∈ (export_to_pdf fetch_404 [broken_assets_record, fixture_record]).2.2 ∧
    (create_movie_title_table fetch_404 broken_assets_record create_styles).1 =
      Flowable.table
        [[[Flowable.paragraph create_styles.movie_title broken_assets_record.title]]]
        [(5.2 : ℚ) * inch, (0.3 : ℚ) * inch] none title_table_style := by
  have h := c8_asset_failure_resilience fetch_404 [broken_assets_record, fixture_record]
    0 (by norm_num)
  have hp := h.2.2.2.1 "404" (by decide) rfl
  have hf := h.2.2.2.2 "404" (by decide) rfl
  exact ⟨h.1, hp.1, hp.2, hf.1, hf.2.1⟩
